import Mathlib

/-!
Verification of the client-side generation-state tracker of the NgocFOXAI/tts
front-end.  The tracker exists in three variants in the repository:

* `src/unnamed/part_009` — the full podcast store, with `generationId` and a
  serializable `uploadedFileMetadata` projection (namespace `Podcast` below);
* `src/frontend/src/stores/podcastStore.js` — a reduced podcast store
  (no `generationId`, no metadata, 60-minute threshold);
* `src/frontend/src/stores/conversationStore.js` — the conversation store
  (namespace `Conversation` below, 50-minute threshold).

Timestamps (`Date.now()` values) are modelled as `Int`, so that
`now - startTime` has exactly the arithmetic the JavaScript source performs.
The JavaScript guard `if (!startTime)` is falsy both for `null` and for the
number `0`; the embedding keeps that distinction (`Option Int`, with the
`some 0` case treated as unset, exactly as the code does).
-/

/-- A raw browser `File` handle: the descriptive metadata the stores read
(`name`, `size`, `type`, `lastModified`) plus opaque contents (`content`),
which only exist on the live handle and are never serializable. -/
structure JSFile where
  name : String
  size : Int
  type : String
  lastModified : Int
  content : List Nat
deriving DecidableEq

/-- The metadata-only projection of a file, as built inside
`startGeneration` / `setUploadedFiles` of `src/unnamed/part_009`:
`(f) => (\x7b name: f.name, size: f.size, type: f.type, lastModified: f.lastModified \x7d)`. -/
structure FileMetadata where
  name : String
  size : Int
  type : String
  lastModified : Int
deriving DecidableEq

/-- `f => (name, size, type, lastModified)` — the mapping applied to each
uploaded file in `src/unnamed/part_009`. -/
def fileMeta (f : JSFile) : FileMetadata :=
  { name := f.name, size := f.size, type := f.type, lastModified := f.lastModified }

/-- Decimal rendering of a natural number, the JavaScript
`Number.prototype.toString()` on a non-negative integer.
`0` renders as the one-character string `0`; otherwise the base-10 digits,
most significant first. -/
def jsToString (n : Nat) : String :=
  if n = 0 then ⟨['0']⟩ else ⟨((Nat.digits 10 n).map Nat.digitChar).reverse⟩

/-- `Date.now().toString()` on an integer clock value: negative values get a
leading minus sign (JavaScript prints them that way); `Date.now()` itself is
always non-negative. -/
def jsIntToString (n : Int) : String :=
  if n < 0 then ⟨'-' :: (jsToString n.natAbs).data⟩ else jsToString n.toNat

namespace Podcast

/-- The state of the podcast generation store of `src/unnamed/part_009`. -/
structure PodcastState where
  isGenerating : Bool
  podcastMode : String
  customText : String
  uploadedFiles : List JSFile
  uploadedFileMetadata : List FileMetadata
  startTime : Option Int
  generationId : Option String
deriving DecidableEq

/-- The initial state of the store in `src/unnamed/part_009`. -/
def initialState : PodcastState :=
  { isGenerating := false, podcastMode := "text", customText := "",
    uploadedFiles := [], uploadedFileMetadata := [],
    startTime := none, generationId := none }

/-- `startGeneration(mode, text = '', files = [])` of `src/unnamed/part_009`.
The source reads the clock twice: once for `generationId`
(`Date.now().toString()`, here `nowId`) and once for `startTime`
(`Date.now()`, here `nowStart`).  The call returns the fresh `generationId`
alongside the updated state. -/
def startGeneration (mode text : String) (files : List JSFile)
    (nowId nowStart : Int) (s : PodcastState) : String × PodcastState :=
  let fileMetadata := files.map fileMeta
  let generationId := jsIntToString nowId
  (generationId,
    { s with
        isGenerating := true, podcastMode := mode, customText := text,
        uploadedFiles := files, uploadedFileMetadata := fileMetadata,
        startTime := some nowStart, generationId := some generationId })

/-- `completeGeneration(result = null)` of `src/unnamed/part_009`: the zustand
`set` merges exactly three fields, leaving every other field as it was. -/
def completeGeneration (s : PodcastState) : PodcastState :=
  { s with isGenerating := false, startTime := none, generationId := none }

/-- `clearGeneration()` of `src/unnamed/part_009`. -/
def clearGeneration (s : PodcastState) : PodcastState :=
  { s with
      isGenerating := false, customText := "", uploadedFiles := [],
      uploadedFileMetadata := [], startTime := none, generationId := none }

/-- `setPodcastMode(mode)` of `src/unnamed/part_009`. -/
def setPodcastMode (mode : String) (s : PodcastState) : PodcastState :=
  { s with podcastMode := mode }

/-- `setCustomText(text)` of `src/unnamed/part_009`. -/
def setCustomText (text : String) (s : PodcastState) : PodcastState :=
  { s with customText := text }

/-- The argument of `setUploadedFiles(filesOrUpdater)`: either a literal
replacement array or a function of the previous array.  (The JavaScript
fallback to `[]` for a non-array, non-function argument is unrepresentable
in the typed model.) -/
inductive FilesArg where
  | literal (files : List JSFile)
  | updater (f : List JSFile → List JSFile)

/-- `setUploadedFiles(filesOrUpdater)` of `src/unnamed/part_009`: resolves the
updater against the previous files and stores the metadata snapshot
alongside. -/
def setUploadedFiles (arg : FilesArg) (s : PodcastState) : PodcastState :=
  let newFiles := match arg with
    | .literal fs => fs
    | .updater f => f s.uploadedFiles
  let fileMetadata := newFiles.map fileMeta
  { s with uploadedFiles := newFiles, uploadedFileMetadata := fileMetadata }

/-- `isTimedOut()` of `src/unnamed/part_009` (5-minute threshold).  The source
guard is `if (!startTime) return false`, which in JavaScript is taken both
when `startTime` is `null` and when it is the (falsy) number `0`; note that
`isGenerating` is never consulted. -/
def isTimedOut (s : PodcastState) (now : Int) : Bool :=
  match s.startTime with
  | none => false
  | some startTime =>
      if startTime = 0 then false
      else
        let elapsed := now - startTime
        decide (elapsed > 5 * 60 * 1000)

/-- `getElapsedMinutes()` of `src/unnamed/part_009`: the same falsy guard
`if (!startTime) return 0`, then `Math.floor((Date.now() - startTime) / 60000)`
(floor division, `Int.fdiv`). -/
def getElapsedMinutes (s : PodcastState) (now : Int) : Int :=
  match s.startTime with
  | none => 0
  | some startTime =>
      if startTime = 0 then 0
      else Int.fdiv (now - startTime) 60000

/-- The serializable record written to durable storage by `src/unnamed/part_009`
(the source names this projection `partialize`): every field except the raw
`uploadedFiles` handles. -/
structure PersistedPodcast where
  isGenerating : Bool
  podcastMode : String
  customText : String
  uploadedFileMetadata : List FileMetadata
  startTime : Option Int
  generationId : Option String
deriving DecidableEq

/-- The persistence projection of `src/unnamed/part_009` (source name:
`partialize`). -/
def persisted (s : PodcastState) : PersistedPodcast :=
  { isGenerating := s.isGenerating, podcastMode := s.podcastMode,
    customText := s.customText, uploadedFileMetadata := s.uploadedFileMetadata,
    startTime := s.startTime, generationId := s.generationId }

/-- Rehydration after a reload: the zustand persist middleware spreads the
deserialized record over the freshly-constructed initial state, so every
persisted field is restored and the non-persisted `uploadedFiles` keeps the
initial value `[]`. -/
def rehydrate (p : PersistedPodcast) : PodcastState :=
  { isGenerating := p.isGenerating, podcastMode := p.podcastMode,
    customText := p.customText, uploadedFiles := initialState.uploadedFiles,
    uploadedFileMetadata := p.uploadedFileMetadata,
    startTime := p.startTime, generationId := p.generationId }

/-- Modelled from the spec: the spec's description of `isTimedOut` — true iff
`isGenerating` is true, `startedAt` is set, and `now - startedAt` exceeds the
fixed threshold.  Written from the spec's words for comparison against the
source's `isTimedOut`. -/
def specIsTimedOut (s : PodcastState) (now : Int) : Bool :=
  s.isGenerating &&
    (match s.startTime with
     | none => false
     | some startTime => decide (now - startTime > 5 * 60 * 1000))

/-- Modelled from the spec: the spec's description of `getElapsedMinutes` —
`floor((now - startedAt) / 60000)` if `startedAt` is set, else 0.  Written
from the spec's words for comparison against the source's
`getElapsedMinutes`. -/
def specElapsedMinutes (s : PodcastState) (now : Int) : Int :=
  match s.startTime with
  | none => 0
  | some startTime => Int.fdiv (now - startTime) 60000

/-- One operation of the tracker's public mutating surface
(`src/unnamed/part_009`).  `start` carries the two clock readings the source
performs during `startGeneration`. -/
inductive Op where
  | start (mode text : String) (files : List JSFile) (nowId nowStart : Int)
  | complete
  | clear
  | setMode (mode : String)
  | setText (text : String)
  | setFiles (arg : FilesArg)

/-- Apply one operation to a state. -/
def applyOp (s : PodcastState) : Op → PodcastState
  | .start mode text files nowId nowStart =>
      (startGeneration mode text files nowId nowStart s).2
  | .complete => completeGeneration s
  | .clear => clearGeneration s
  | .setMode mode => setPodcastMode mode s
  | .setText text => setCustomText text s
  | .setFiles arg => setUploadedFiles arg s

/-- Run a sequence of operations from the initial state. -/
def run (ops : List Op) : PodcastState :=
  ops.foldl applyOp initialState

/-- A clock reading is positive: `Date.now()` is milliseconds since the 1970
epoch, so every reading taken by a real execution is positive. -/
def posOp : Op → Bool
  | .start _ _ _ _ nowStart => decide (0 < nowStart)
  | _ => true

/-- Every `startGeneration` in the trace stamped a positive clock reading. -/
def allPos (ops : List Op) : Bool :=
  ops.all posOp

/-- The start time a trace leaves behind: the clock of the last
`startGeneration` not followed by a `completeGeneration`/`clearGeneration`. -/
def stepStart (acc : Option Int) : Op → Option Int
  | .start _ _ _ _ nowStart => some nowStart
  | .complete => none
  | .clear => none
  | _ => acc

/-- The start time left by a whole trace (none if no start is live). -/
def lastStartOf (ops : List Op) : Option Int :=
  ops.foldl stepStart none

/-- The two data-model invariants claimed by the spec. -/
def Inv (s : PodcastState) : Prop :=
  (s.isGenerating = true → s.startTime ≠ none) ∧
    (s.generationId ≠ none ↔ s.isGenerating = true)

/-- The strengthened reachability invariant: either idle with no start time,
or generating with a positive start time. -/
def PosInv (s : PodcastState) : Prop :=
  (s.isGenerating = false ∧ s.startTime = none) ∨
    (s.isGenerating = true ∧ ∃ t, s.startTime = some t ∧ 0 < t)

end Podcast

namespace Conversation

/-- The state of the conversation generation store of
`src/frontend/src/stores/conversationStore.js`.  Its `selectedFiles` holds the
raw file handles passed to `startGeneration(files)`. -/
structure State where
  generating : Bool
  selectedFiles : List JSFile
  startTime : Option Int
deriving DecidableEq

/-- The initial state of the conversation store. -/
def initialState : State :=
  { generating := false, selectedFiles := [], startTime := none }

/-- `startGeneration(files)` of `conversationStore.js`. -/
def startGeneration (files : List JSFile) (now : Int) (s : State) : State :=
  { s with generating := true, selectedFiles := files, startTime := some now }

/-- `completeGeneration()` of `conversationStore.js`: unlike the podcast
variant, it also empties `selectedFiles`. -/
def completeGeneration (s : State) : State :=
  { s with generating := false, selectedFiles := [], startTime := none }

/-- `clearGeneration()` of `conversationStore.js` — textually identical to
`completeGeneration`. -/
def clearGeneration (s : State) : State :=
  { s with generating := false, selectedFiles := [], startTime := none }

/-- `isTimedOut()` of `conversationStore.js` (50-minute threshold), with the
same falsy `!startTime` guard as the podcast variant. -/
def isTimedOut (s : State) (now : Int) : Bool :=
  match s.startTime with
  | none => false
  | some startTime =>
      if startTime = 0 then false
      else
        let elapsed := now - startTime
        decide (elapsed > 50 * 60 * 1000)

/-- `getElapsedMinutes()` of `conversationStore.js`. -/
def getElapsedMinutes (s : State) (now : Int) : Int :=
  match s.startTime with
  | none => 0
  | some startTime =>
      if startTime = 0 then 0
      else Int.fdiv (now - startTime) 60000

/-- The record persisted by `conversationStore.js` (source name: `partialize`):
all three fields, `selectedFiles` — the raw file handles — included. -/
structure Persisted where
  generating : Bool
  selectedFiles : List JSFile
  startTime : Option Int
deriving DecidableEq

/-- The persistence projection of `conversationStore.js` (source name:
`partialize`). -/
def persisted (s : State) : Persisted :=
  { generating := s.generating, selectedFiles := s.selectedFiles,
    startTime := s.startTime }

/-- Rehydration after a reload: every field of the conversation store is in
the persisted record, so the spread over the initial state restores all of
them — including `selectedFiles`. -/
def rehydrate (p : Persisted) : State :=
  { generating := p.generating, selectedFiles := p.selectedFiles,
    startTime := p.startTime }

end Conversation

/-! ### Injectivity of decimal rendering -/

/-- `Nat.digitChar` is injective below 10 (the digits a decimal rendering
can produce). -/
theorem digitChar_inj_lt : ∀ a < 10, ∀ b < 10,
    Nat.digitChar a = Nat.digitChar b → a = b := by decide

/-- Mapping `Nat.digitChar` over lists of decimal digits is injective. -/
theorem map_digitChar_inj : ∀ (l1 : List Nat), (∀ x ∈ l1, x < 10) →
    ∀ (l2 : List Nat), (∀ x ∈ l2, x < 10) →
    l1.map Nat.digitChar = l2.map Nat.digitChar → l1 = l2 := by
  intro l1
  induction l1 with
  | nil =>
      intro _ l2 _ h
      cases l2 with
      | nil => rfl
      | cons b t2 => simp at h
  | cons a t ih =>
      intro h1 l2 h2 h
      cases l2 with
      | nil => simp at h
      | cons b t2 =>
          simp only [List.map_cons, List.cons.injEq] at h
          obtain ⟨hab, ht⟩ := h
          have ha : a < 10 := h1 a (by simp)
          have hb : b < 10 := h2 b (by simp)
          have hab2 : a = b := digitChar_inj_lt a ha b hb hab
          have htt : t = t2 :=
            ih (fun x hx => h1 x (by simp [hx])) t2 (fun x hx => h2 x (by simp [hx])) ht
          simp [hab2, htt]

/-- A positive number never renders as the string `0`. -/
theorem jsToString_pos_ne_zeroStr {n : Nat} (hn : n ≠ 0) :
    jsToString n ≠ (⟨['0']⟩ : String) := by
  intro h
  rw [jsToString, if_neg hn] at h
  have hd : ((Nat.digits 10 n).map Nat.digitChar).reverse = ['0'] :=
    congrArg String.data h
  have hmap : (Nat.digits 10 n).map Nat.digitChar = ['0'] := by
    have := congrArg List.reverse hd
    simpa using this
  rcases hdig : Nat.digits 10 n with _ | ⟨d, rest⟩
  · rw [hdig] at hmap; simp at hmap
  · rw [hdig] at hmap
    simp only [List.map_cons, List.cons.injEq] at hmap
    obtain ⟨hd0, hrest⟩ := hmap
    have hrest2 : rest = [] := by simpa using hrest
    have hdlt : d < 10 := Nat.digits_lt_base (by norm_num) (by rw [hdig]; simp)
    have hd0' : d = 0 := digitChar_inj_lt d hdlt 0 (by norm_num) (by rw [hd0]; rfl)
    have hdig0 : Nat.digits 10 n = [0] := by rw [hdig, hrest2, hd0']
    have hlast := Nat.getLast_digit_ne_zero 10 hn
    have hq : (Nat.digits 10 n).getLast?
        = some ((Nat.digits 10 n).getLast (Nat.digits_ne_nil_iff_ne_zero.mpr hn)) :=
      List.getLast?_eq_getLast_of_ne_nil _
    have hq2 : (Nat.digits 10 n).getLast? = some 0 := by rw [hdig0]; rfl
    exact hlast (Option.some_injective _ (hq.symm.trans hq2))

/-- Decimal rendering of naturals is injective. -/
theorem jsToString_inj : ∀ {m n : Nat}, jsToString m = jsToString n → m = n := by
  intro m n h
  by_cases hm : m = 0 <;> by_cases hn : n = 0
  · rw [hm, hn]
  · exfalso
    subst hm
    have h0 : jsToString 0 = (⟨['0']⟩ : String) := rfl
    rw [h0] at h
    exact jsToString_pos_ne_zeroStr hn h.symm
  · exfalso
    subst hn
    have h0 : jsToString 0 = (⟨['0']⟩ : String) := rfl
    rw [h0] at h
    exact jsToString_pos_ne_zeroStr hm h
  · rw [jsToString, if_neg hm, jsToString, if_neg hn] at h
    have hd : ((Nat.digits 10 m).map Nat.digitChar).reverse
        = ((Nat.digits 10 n).map Nat.digitChar).reverse := congrArg String.data h
    have hmap : (Nat.digits 10 m).map Nat.digitChar
        = (Nat.digits 10 n).map Nat.digitChar := by
      have := congrArg List.reverse hd
      simpa using this
    have hdig : Nat.digits 10 m = Nat.digits 10 n :=
      map_digitChar_inj _ (fun x hx => Nat.digits_lt_base (by norm_num) hx) _
        (fun x hx => Nat.digits_lt_base (by norm_num) hx) hmap
    exact Nat.digits_inj_iff.mp hdig

/-- Decimal rendering of non-negative integer clock values is injective. -/
theorem jsIntToString_inj_nonneg {a b : Int} (ha : 0 ≤ a) (hb : 0 ≤ b)
    (h : jsIntToString a = jsIntToString b) : a = b := by
  unfold jsIntToString at h
  rw [if_neg (by omega), if_neg (by omega)] at h
  have := jsToString_inj h
  omega

/-! ### Trace lemmas for the podcast tracker -/

namespace Podcast

/-- Each operation changes `startTime` exactly as `stepStart` describes. -/
theorem applyOp_startTime (s : PodcastState) (o : Op) :
    (applyOp s o).startTime = stepStart s.startTime o := by
  cases o <;> rfl

/-- Folding the operations tracks `startTime` through `stepStart`. -/
theorem foldl_startTime : ∀ (ops : List Op) (s : PodcastState),
    (ops.foldl applyOp s).startTime = ops.foldl stepStart s.startTime := by
  intro ops
  induction ops with
  | nil => intro s; rfl
  | cons o rest ih =>
      intro s
      rw [List.foldl_cons, List.foldl_cons, ih, applyOp_startTime]

/-- The start time of the state a trace reaches is the one the trace's last
live `startGeneration` stamped. -/
theorem run_startTime (ops : List Op) : (run ops).startTime = lastStartOf ops :=
  foldl_startTime ops initialState

/-- The spec's two invariants are preserved by every operation. -/
theorem inv_step (s : PodcastState) (h : Inv s) (o : Op) : Inv (applyOp s o) := by
  obtain ⟨g, pm, ct, uf, um, st, gid⟩ := s
  cases o <;>
    simp_all [Inv, applyOp, startGeneration, completeGeneration, clearGeneration,
      setPodcastMode, setCustomText, setUploadedFiles]

/-- The initial state satisfies the invariants. -/
theorem initialState_inv : Inv initialState := by
  simp [Inv, initialState]

/-- The invariants hold along any fold of operations. -/
theorem foldl_inv : ∀ (ops : List Op) (s : PodcastState),
    Inv s → Inv (ops.foldl applyOp s) := by
  intro ops
  induction ops with
  | nil => intro s h; exact h
  | cons o rest ih => intro s h; exact ih _ (inv_step s h o)

/-- The strengthened invariant is preserved by every operation whose clock
reading is positive. -/
theorem posInv_step (s : PodcastState) (h : PosInv s) (o : Op)
    (ho : posOp o = true) : PosInv (applyOp s o) := by
  obtain ⟨g, pm, ct, uf, um, st, gid⟩ := s
  cases o with
  | start mode text files nowId nowStart =>
      right
      refine ⟨rfl, nowStart, rfl, ?_⟩
      simpa [posOp] using ho
  | complete => left; exact ⟨rfl, rfl⟩
  | clear => left; exact ⟨rfl, rfl⟩
  | setMode mode => exact h
  | setText text => exact h
  | setFiles arg => exact h

/-- The initial state satisfies the strengthened invariant. -/
theorem initialState_posInv : PosInv initialState := Or.inl ⟨rfl, rfl⟩

/-- The strengthened invariant holds along any fold of positive-clock
operations. -/
theorem foldl_posInv : ∀ (ops : List Op) (s : PodcastState), PosInv s →
    (∀ o ∈ ops, posOp o = true) → PosInv (ops.foldl applyOp s) := by
  intro ops
  induction ops with
  | nil => intro s h _; exact h
  | cons o rest ih =>
      intro s h hall
      exact ih _ (posInv_step s h o (hall o (by simp)))
        (fun x hx => hall x (by simp [hx]))

/-- Every state reachable with positive clock readings satisfies the
strengthened invariant. -/
theorem run_posInv (ops : List Op) (h : allPos ops = true) : PosInv (run ops) :=
  foldl_posInv ops initialState initialState_posInv
    (by simpa [allPos, List.all_eq_true] using h)

end Podcast

/-! ### The claims -/

/-- Claim C1 (amended): in the podcast tracker of `src/unnamed/part_009`,
`completeGeneration` clears exactly `isGenerating`, `startTime` and
`generationId` and leaves `podcastMode`, `customText`, `uploadedFiles` and
`uploadedFileMetadata` unchanged; the conversation tracker's
`completeGeneration` additionally empties `selectedFiles`, resetting the
whole record. -/
theorem completeGeneration_frame :
    (∀ s : Podcast.PodcastState,
        (Podcast.completeGeneration s).isGenerating = false
        ∧ (Podcast.completeGeneration s).startTime = none
        ∧ (Podcast.completeGeneration s).generationId = none
        ∧ (Podcast.completeGeneration s).podcastMode = s.podcastMode
        ∧ (Podcast.completeGeneration s).customText = s.customText
        ∧ (Podcast.completeGeneration s).uploadedFiles = s.uploadedFiles
        ∧ (Podcast.completeGeneration s).uploadedFileMetadata = s.uploadedFileMetadata)
    ∧ (∀ c : Conversation.State,
        Conversation.completeGeneration c
          = { generating := false, selectedFiles := [], startTime := none }) :=
  ⟨fun _ => ⟨rfl, rfl, rfl, rfl, rfl, rfl, rfl⟩, fun _ => rfl⟩

/-- Claim C1 counterexample: in the conversation tracker, `completeGeneration`
does not leave the file field unchanged — a state holding one selected file
loses it, so a fourth field beyond the three cleared ones changes. -/
theorem conversation_complete_clears_files :
    (Conversation.completeGeneration
        { generating := true,
          selectedFiles := [{ name := "a.pdf", size := 1000,
                              type := "application/pdf", lastModified := 123,
                              content := [1] }],
          startTime := some 5 }).selectedFiles
      ≠ [{ name := "a.pdf", size := 1000, type := "application/pdf",
           lastModified := 123, content := [1] }] := by decide

/-- Claim C2 (amended): for the podcast tracker of `src/unnamed/part_009`,
persisting and rehydrating yields the same state except that the raw
`uploadedFiles` handles are reset to empty, while `uploadedFileMetadata`
and every other field survive. -/
theorem persisted_roundtrip_drops_files (s : Podcast.PodcastState) :
    Podcast.rehydrate (Podcast.persisted s) = { s with uploadedFiles := [] } := by
  obtain ⟨g, pm, ct, uf, um, st, gid⟩ := s
  rfl

/-- Claim C2 counterexample: the conversation tracker's persistence projection
keeps the raw `selectedFiles` handles, so after a round trip the raw files
collection is not empty. -/
theorem conversation_persist_keeps_files :
    (Conversation.rehydrate (Conversation.persisted
        { generating := false,
          selectedFiles := [{ name := "b.pdf", size := 2000,
                              type := "application/pdf", lastModified := 456,
                              content := [2] }],
          startTime := none })).selectedFiles
      ≠ [] := by decide

/-- Claim C3: any operation sequence ending in `startGeneration` immediately
followed by `completeGeneration` leaves `isGenerating` false and both
`startTime` and `generationId` null. -/
theorem start_then_complete_resets (ops : List Podcast.Op) (mode text : String)
    (files : List JSFile) (nowId nowStart : Int) :
    (Podcast.run (ops ++ [Podcast.Op.start mode text files nowId nowStart,
        Podcast.Op.complete])).isGenerating = false
    ∧ (Podcast.run (ops ++ [Podcast.Op.start mode text files nowId nowStart,
        Podcast.Op.complete])).startTime = none
    ∧ (Podcast.run (ops ++ [Podcast.Op.start mode text files nowId nowStart,
        Podcast.Op.complete])).generationId = none := by
  refine ⟨?_, ?_, ?_⟩ <;>
    simp [Podcast.run, List.foldl_append, Podcast.applyOp, Podcast.completeGeneration]

/-- Claim C4: every state reachable from the initial state by the tracker's
operations satisfies both invariants — `isGenerating = true` implies
`startTime` is non-null, and `generationId` is non-null iff `isGenerating`
is true. -/
theorem reachable_invariants (ops : List Podcast.Op) :
    ((Podcast.run ops).isGenerating = true → (Podcast.run ops).startTime ≠ none)
    ∧ ((Podcast.run ops).generationId ≠ none ↔ (Podcast.run ops).isGenerating = true) :=
  Podcast.foldl_inv ops Podcast.initialState Podcast.initialState_inv

/-- Claim C5 (amended): on every state reachable from the initial state with
positive clock readings, `isTimedOut()` agrees with the spec's description —
true iff `isGenerating` is true, `startTime` is set and `now - startTime`
strictly exceeds the 5-minute threshold.  (On arbitrary states the
implementation consults only `startTime`, never `isGenerating`.) -/
theorem isTimedOut_matches_spec_on_reachable (ops : List Podcast.Op) (now : Int)
    (h : Podcast.allPos ops = true) :
    Podcast.isTimedOut (Podcast.run ops) now
      = Podcast.specIsTimedOut (Podcast.run ops) now := by
  rcases Podcast.run_posInv ops h with ⟨hg, hst⟩ | ⟨hg, t, hst, ht⟩
  · simp [Podcast.isTimedOut, Podcast.specIsTimedOut, hg, hst]
  · have htz : t ≠ 0 := by omega
    simp [Podcast.isTimedOut, Podcast.specIsTimedOut, hg, hst, htz]

/-- Claim C5 counterexample: on a state that is not generating but still
carries a stale `startTime`, `isTimedOut()` returns true although the claim
requires false whenever the tracker is not generating — the implementation
never consults `isGenerating`. -/
theorem isTimedOut_ignores_isGenerating :
    Podcast.isTimedOut
        { isGenerating := false, podcastMode := "text", customText := "",
          uploadedFiles := [], uploadedFileMetadata := [],
          startTime := some 1, generationId := none } 10000000
      ≠ Podcast.specIsTimedOut
          { isGenerating := false, podcastMode := "text", customText := "",
            uploadedFiles := [], uploadedFileMetadata := [],
            startTime := some 1, generationId := none } 10000000 := by decide

/-- Claim C5 witness: a concrete reachable state on which the amended
equivalence is instantiated. -/
theorem isTimedOut_matches_spec_witness :
    Podcast.allPos [Podcast.Op.start "text" "hello" [] 5 5] = true
    ∧ Podcast.isTimedOut (Podcast.run [Podcast.Op.start "text" "hello" [] 5 5]) 6
        = Podcast.specIsTimedOut
            (Podcast.run [Podcast.Op.start "text" "hello" [] 5 5]) 6 :=
  ⟨by decide, isTimedOut_matches_spec_on_reachable [Podcast.Op.start "text" "hello" [] 5 5] 6 (by decide)⟩

/-- Claim C6 (amended): `getElapsedMinutes()` returns
`floor((now - startTime) / 60000)` whenever `startTime` is set to a nonzero
timestamp, and 0 when `startTime` is null; a zero timestamp is treated as
unset by the falsy guard and also yields 0. -/
theorem getElapsedMinutes_matches_spec_of_nonzero_start (s : Podcast.PodcastState)
    (now : Int) (h : s.startTime ≠ some 0) :
    Podcast.getElapsedMinutes s now = Podcast.specElapsedMinutes s now := by
  obtain ⟨g, pm, ct, uf, um, st, gid⟩ := s
  cases st with
  | none => rfl
  | some t =>
      have htz : t ≠ 0 := by
        intro ht
        exact h (by simp [ht])
      simp [Podcast.getElapsedMinutes, Podcast.specElapsedMinutes, htz]

/-- Claim C6 counterexample: with `startTime` equal to the (falsy) timestamp 0,
the implementation returns 0 although the claim's formula gives
`floor(120000 / 60000) = 2`. -/
theorem getElapsedMinutes_zero_start_divergence :
    Podcast.getElapsedMinutes
        { isGenerating := true, podcastMode := "text", customText := "",
          uploadedFiles := [], uploadedFileMetadata := [],
          startTime := some 0, generationId := some ⟨['0']⟩ } 120000
      ≠ Podcast.specElapsedMinutes
          { isGenerating := true, podcastMode := "text", customText := "",
            uploadedFiles := [], uploadedFileMetadata := [],
            startTime := some 0, generationId := some ⟨['0']⟩ } 120000 := by decide

/-- Claim C6 witness: the amended equality instantiated on a concrete state
with a nonzero start time. -/
theorem getElapsedMinutes_matches_spec_witness :
    ({ isGenerating := true, podcastMode := "text", customText := "hi",
       uploadedFiles := [], uploadedFileMetadata := [],
       startTime := some 5, generationId := some ⟨['5']⟩ } :
        Podcast.PodcastState).startTime ≠ some 0
    ∧ Podcast.getElapsedMinutes
        { isGenerating := true, podcastMode := "text", customText := "hi",
          uploadedFiles := [], uploadedFileMetadata := [],
          startTime := some 5, generationId := some ⟨['5']⟩ } 120005
      = Podcast.specElapsedMinutes
          { isGenerating := true, podcastMode := "text", customText := "hi",
            uploadedFiles := [], uploadedFileMetadata := [],
            startTime := some 5, generationId := some ⟨['5']⟩ } 120005 :=
  ⟨by decide, getElapsedMinutes_matches_spec_of_nonzero_start _ 120005 (by decide)⟩

/-- Claim C7: the value `startGeneration` returns is exactly the (non-null)
`generationId` stored in the state immediately after the call. -/
theorem startGeneration_returns_stored_id (mode text : String) (files : List JSFile)
    (nowId nowStart : Int) (s : Podcast.PodcastState) :
    (Podcast.startGeneration mode text files nowId nowStart s).2.generationId
      = some (Podcast.startGeneration mode text files nowId nowStart s).1 := rfl

/-- Claim C8 (amended): two consecutive `startGeneration` calls yield distinct
ids whenever their (non-negative) clock readings differ; ids are the
millisecond clock rendered in decimal, so calls within the same millisecond
collide. -/
theorem consecutive_start_ids_differ_of_clock_differs
    (mode1 text1 mode2 text2 : String) (files1 files2 : List JSFile)
    (nowId1 nowStart1 nowId2 nowStart2 : Int) (st : Podcast.PodcastState)
    (h1 : 0 ≤ nowId1) (h2 : 0 ≤ nowId2) (hne : nowId1 ≠ nowId2) :
    (Podcast.startGeneration mode2 text2 files2 nowId2 nowStart2
        (Podcast.startGeneration mode1 text1 files1 nowId1 nowStart1 st).2).1
      ≠ (Podcast.startGeneration mode1 text1 files1 nowId1 nowStart1 st).1 := by
  intro h
  exact hne (jsIntToString_inj_nonneg h2 h1 h).symm

/-- Claim C8 counterexample: two consecutive `startGeneration` calls within the
same millisecond (both `Date.now().toString()` reads return 7) produce the
same id, so the claim that the second id always differs is false. -/
theorem same_millisecond_start_ids_collide :
    (Podcast.startGeneration "documents" "b" [] 7 8
        (Podcast.startGeneration "text" "a" [] 7 7 Podcast.initialState).2).1
      = (Podcast.startGeneration "text" "a" [] 7 7 Podcast.initialState).1 := rfl

/-- Claim C8 witness: the amended distinctness instantiated at clocks 5 and 6. -/
theorem consecutive_start_ids_witness :
    0 ≤ (5 : Int) ∧ 0 ≤ (6 : Int) ∧ (5 : Int) ≠ 6
    ∧ (Podcast.startGeneration "text" "b" [] 6 6
          (Podcast.startGeneration "text" "a" [] 5 5 Podcast.initialState).2).1
        ≠ (Podcast.startGeneration "text" "a" [] 5 5 Podcast.initialState).1 :=
  ⟨by decide, by decide, by decide,
    consecutive_start_ids_differ_of_clock_differs "text" "a" "text" "b" [] [] 5 5 6 6
      Podcast.initialState (by decide) (by decide) (by decide)⟩

/-- Claim C9: along every execution, `isTimedOut()` is false at any instant at
which the elapsed time since the live start is at most the 5-minute
threshold — in particular immediately after `startGeneration` — and it
returns true only if the threshold has elapsed since the last
`startGeneration` with no intervening `completeGeneration`/`clearGeneration`
(the start time `lastStartOf` tracks). -/
theorem timeout_temporal_bounds :
    (∀ (ops : List Podcast.Op) (now : Int),
        (∀ t, Podcast.lastStartOf ops = some t → now - t ≤ 5 * 60 * 1000) →
        Podcast.isTimedOut (Podcast.run ops) now = false)
    ∧ (∀ (ops : List Podcast.Op) (now : Int),
        Podcast.isTimedOut (Podcast.run ops) now = true →
        ∃ t, Podcast.lastStartOf ops = some t ∧ 5 * 60 * 1000 < now - t)
    ∧ (∀ (mode text : String) (files : List JSFile) (nowId now : Int)
        (s : Podcast.PodcastState),
        Podcast.isTimedOut (Podcast.startGeneration mode text files nowId now s).2 now
          = false) := by
  refine ⟨?_, ?_, ?_⟩
  · intro ops now h
    have hst := Podcast.run_startTime ops
    rcases hl : Podcast.lastStartOf ops with _ | t
    · rw [hl] at hst
      simp [Podcast.isTimedOut, hst]
    · rw [hl] at hst
      have hle := h t hl
      by_cases htz : t = 0
      · simp [Podcast.isTimedOut, hst, htz]
      · have hnot : ¬ (now - t > 5 * 60 * 1000) := by omega
        simp [Podcast.isTimedOut, hst, htz, hnot]
        omega
  · intro ops now h
    have hst := Podcast.run_startTime ops
    rcases hl : Podcast.lastStartOf ops with _ | t
    · rw [hl] at hst
      simp [Podcast.isTimedOut, hst] at h
    · rw [hl] at hst
      by_cases htz : t = 0
      · simp [Podcast.isTimedOut, hst, htz] at h
      · simp [Podcast.isTimedOut, hst, htz] at h
        exact ⟨t, rfl, by omega⟩
  · intro mode text files nowId now s
    by_cases hz : now = 0
    · simp [Podcast.startGeneration, Podcast.isTimedOut, hz]
    · have hnot : ¬ (now - now > 5 * 60 * 1000) := by omega
      simp [Podcast.startGeneration, Podcast.isTimedOut, hz, hnot]

/-- Claim C9 witness: both temporal bounds instantiated on a concrete trace —
one second after a start at clock 5 the tracker is not timed out, and when
it reports a timeout at clock 1000000 the last live start (clock 5) is
indeed more than the threshold in the past. -/
theorem timeout_temporal_bounds_witness :
    Podcast.isTimedOut (Podcast.run [Podcast.Op.start "text" "hi" [] 5 5]) 1005 = false
    ∧ (∃ t, Podcast.lastStartOf [Podcast.Op.start "text" "hi" [] 5 5] = some t
        ∧ 5 * 60 * 1000 < 1000000 - t) :=
  ⟨timeout_temporal_bounds.1 [Podcast.Op.start "text" "hi" [] 5 5] 1005
      (fun t ht => by
        simp [Podcast.lastStartOf, Podcast.stepStart] at ht
        omega),
    timeout_temporal_bounds.2.1 [Podcast.Op.start "text" "hi" [] 5 5] 1000000
      (by decide)⟩

/-- Claim C10: in the conversation tracker, `completeGeneration` and
`clearGeneration` are extensionally equal, both yielding the reset state
(generating false, no selected files, no start time). -/
theorem conversation_complete_eq_clear (s : Conversation.State) :
    Conversation.completeGeneration s = Conversation.clearGeneration s
    ∧ (Conversation.completeGeneration s).generating = false
    ∧ (Conversation.completeGeneration s).selectedFiles = []
    ∧ (Conversation.completeGeneration s).startTime = none :=
  ⟨rfl, rfl, rfl, rfl⟩
